import Mathlib

/-!
# Verification of the express-jobly data-access layer

A shallow embedding of the repository's query-fragment compiler
(`helpers/sql.js`), the filter-predicate compilers (`helpers/sql.js` and the
two revisions of the `Job` model's static `formatWhereCmds`), the `Job.update`
repository operation, and the authorization gate `ensureCurrUserOrAdmin`
(`middleware/auth.js`), together with theorems settling the specification's
claims about them.

JavaScript objects used as sparse maps are embedded as association lists in
insertion order; JavaScript primitive values are embedded as `JSVal`;
name-translation objects (which are only ever read by key) are embedded as
functions `String → Option String` where `none` plays the role of a missing
key (`undefined`); thrown errors are embedded with `Except`.
-/

namespace Jobly

/-- A JavaScript primitive value as it appears in the repository's payloads:
a string, an integer number, a boolean, or null. -/
inductive JSVal where
  | str (s : String)
  | num (n : Int)
  | bool (b : Bool)
  | null
deriving DecidableEq, Repr

/-- Template-literal stringification of a `JSVal`, as in a backquoted
JavaScript string interpolation. -/
def JSVal.display : JSVal → String
  | .str s => s
  | .num n => toString n
  | .bool b => if b then "true" else "false"
  | .null => "null"

/-- JavaScript truthiness of a `JSVal`: empty string, zero, false and null
are falsy, everything else is truthy. -/
def JSVal.truthy : JSVal → Bool
  | .str s => s != ""
  | .num n => n != 0
  | .bool b => b
  | .null => false

/-- Truthiness of an optional `JSVal`; a missing property (undefined) is
falsy. -/
def truthyOpt : Option JSVal → Bool
  | some v => v.truthy
  | none => false

/-- JavaScript property read on an object embedded as an association list:
the value at the first matching key, or `none` (undefined) when absent. -/
def lookupJS (k : String) (obj : List (String × JSVal)) : Option JSVal :=
  (obj.find? (fun kv => kv.1 == k)).map Prod.snd

/-- The three error classes this layer throws: `BadRequestError` (caller
error), `NotFoundError`, `UnauthorizedError`. -/
inductive JsError where
  | badRequest (msg : String)
  | notFound (msg : String)
  | unauthorized
deriving DecidableEq, Repr

/-! ## helpers/sql.js : sqlForPartialUpdate -/

/-- The column-name translation `jsToSql[colName] || colName` from
`sqlForPartialUpdate`: the translated name when present and truthy (the only
falsy string is the empty string), otherwise the original key. -/
def jsToSqlName (jsToSql : String → Option String) (colName : String) : String :=
  match jsToSql colName with
  | some s => if s = "" then colName else s
  | none => colName

/-- The `keys.map((colName, idx) => ...)` step of `sqlForPartialUpdate`,
with the running zero-based index made explicit: each key becomes the
fragment quoted-name=dollar-(index+1). -/
def colsFrom (jsToSql : String → Option String) : Nat → List String → List String
  | _, [] => []
  | idx, colName :: rest =>
      ("\"" ++ jsToSqlName jsToSql colName ++ "\"=$" ++ toString (idx + 1))
        :: colsFrom jsToSql (idx + 1) rest

/-- The record returned by `sqlForPartialUpdate`: the joined assignment
fragments and the update values in key order. -/
structure SqlUpdate where
  setCols : String
  values : List JSVal
deriving DecidableEq, Repr

/-- `sqlForPartialUpdate(dataToUpdate, jsToSql)` from `helpers/sql.js`:
throws `BadRequestError("No data")` on an empty map, otherwise maps the i-th
key to the fragment quoted-name=dollar-(i+1) (names translated through
`jsToSql` with falsy fallback), joins the fragments with a comma-space, and
returns the object's values in the same key order. -/
def sqlForPartialUpdate (dataToUpdate : List (String × JSVal))
    (jsToSql : String → Option String) : Except JsError SqlUpdate :=
  let keys := dataToUpdate.map Prod.fst
  if keys.length = 0 then .error (.badRequest "No data")
  else
    let cols := colsFrom jsToSql 0 keys
    .ok ⟨String.intercalate ", " cols, dataToUpdate.map Prod.snd⟩

/-! ## helpers/sql.js : formatWhereCmds (company filter helper) -/

/-- The record returned by the helper `formatWhereCmds`: the accumulated
condition strings and the space-joined placeholder index string. -/
structure HelperWhere where
  conditions : List String
  sqlIdx : String
deriving DecidableEq, Repr

/-- One loop iteration of the helper `formatWhereCmds`: the prefix is
"WHERE " while no condition has been pushed yet and "AND " afterwards; a
truthy criteria for a recognized key pushes a condition with the criteria
interpolated directly into the text. -/
def formatWhereStep (conds : List String) (kv : String × JSVal) : List String :=
  let pre := if conds.length > 0 then "AND " else "WHERE "
  let criteria := kv.2
  if criteria.truthy then
    if kv.1 = "nameLike" then
      conds ++ [pre ++ "name ILIKE \x27%" ++ criteria.display ++ "%\x27"]
    else if kv.1 = "minEmployees" then
      conds ++ [pre ++ "num_employees >= " ++ criteria.display]
    else if kv.1 = "maxEmployees" then
      conds ++ [pre ++ "num_employees <= " ++ criteria.display]
    else conds
  else conds

/-- `formatWhereCmds(filters)` from `helpers/sql.js`: folds the filter
object's entries in insertion order through `formatWhereStep` and pairs the
conditions with the placeholder-index string built from their positions.
It never throws. -/
def formatWhereCmds (filters : List (String × JSVal)) : HelperWhere :=
  let conditions := filters.foldl formatWhereStep []
  ⟨conditions,
    String.intercalate " "
      ((List.range conditions.length).map (fun idx => "$" ++ toString (idx + 1)))⟩

/-- The guard at the top of `Company.findAll` in the company model:
`filters?.minEmployees > filters?.maxEmployees` throws `BadRequestError`
before the filter compiler runs; the comparison is false whenever either
bound is absent or non-numeric. -/
def companyFindAllBoundsError (filters : List (String × JSVal)) : Bool :=
  match lookupJS "minEmployees" filters, lookupJS "maxEmployees" filters with
  | some (.num a), some (.num b) => decide (b < a)
  | _, _ => false

/-! ## Job model : formatWhereCmds, two revisions -/

/-- The record returned by the Job model's `formatWhereCmds`: `sqlCmd` and
`values` are each either a real payload or null. -/
structure JobWhere where
  sqlCmd : Option String
  values : Option (List JSVal)
deriving DecidableEq, Repr

/-- `Job.formatWhereCmds(filters)` in the revision whose `findAll` joins the
companies table (part_000): an empty filter object short-circuits to
`(null, null)`; otherwise `title`, `minSalary` and `hasEquity` are tested for
truthiness in that fixed order, each truthy one appending one parameterized
condition and one value, and the conditions are joined after a "WHERE "
prefix. -/
def jobFormatWhereCmds (filters : List (String × JSVal)) : JobWhere :=
  if filters.length = 0 then ⟨none, none⟩
  else
    let title := lookupJS "title" filters
    let minSalary := lookupJS "minSalary" filters
    let hasEquity := lookupJS "hasEquity" filters
    let c0 : List String := []
    let v0 : List JSVal := []
    let c1 := if truthyOpt title then
        c0 ++ ["title ILIKE $" ++ toString (c0.length + 1)] else c0
    let v1 := if truthyOpt title then
        v0 ++ [JSVal.str ("%" ++ (title.getD JSVal.null).display ++ "%")] else v0
    let c2 := if truthyOpt minSalary then
        c1 ++ ["salary >= $" ++ toString (c1.length + 1)] else c1
    let v2 := if truthyOpt minSalary then
        v1 ++ [minSalary.getD JSVal.null] else v1
    let c3 := if truthyOpt hasEquity then
        c2 ++ ["equity > $" ++ toString (c2.length + 1)] else c2
    let v3 := if truthyOpt hasEquity then
        v2 ++ [JSVal.num 0] else v2
    ⟨some ("WHERE " ++ String.intercalate " AND " c3), some v3⟩

/-- One loop iteration of the revised `Job.formatWhereCmds` (part_001):
`title` and `minSalary` entries append a parameterized condition and a
value; any other entry appends the equity condition only when its value is
exactly the boolean true. -/
def jobWhereStepRev (cv : List String × List JSVal) (kv : String × JSVal) :
    List String × List JSVal :=
  if kv.1 = "title" then
    (cv.1 ++ ["title ILIKE $" ++ toString (cv.1.length + 1)],
     cv.2 ++ [JSVal.str ("%" ++ kv.2.display ++ "%")])
  else if kv.1 = "minSalary" then
    (cv.1 ++ ["salary >= $" ++ toString (cv.1.length + 1)], cv.2 ++ [kv.2])
  else if kv.2 = JSVal.bool true then
    (cv.1 ++ ["equity > $" ++ toString (cv.1.length + 1)], cv.2 ++ [JSVal.num 0])
  else cv

/-- `Job.formatWhereCmds(filters)` in the revised Job model (part_001): a
one-key filter object whose only key is `hasEquity` with a value other than
exactly true short-circuits to `(null, null)`; otherwise the entries are
folded in insertion order and the conditions joined after a "WHERE "
prefix. -/
def jobFormatWhereCmdsRev (filters : List (String × JSVal)) : JobWhere :=
  if filters.length = 1 &&
      (filters.map Prod.fst).contains "hasEquity" &&
      !(lookupJS "hasEquity" filters == some (JSVal.bool true)) then
    ⟨none, none⟩
  else
    let cv := filters.foldl jobWhereStepRev ([], [])
    ⟨some ("WHERE " ++ String.intercalate " AND " cv.1), some cv.2⟩

/-! ## Job model : update -/

/-- A database row, as the executor returns it: a column-name/value map. -/
abbrev Row := List (String × JSVal)

/-- The statement-construction half of `Job.update(id, data)` (part_000):
the compiled SET clause from `sqlForPartialUpdate(data, {})`, the id
placeholder at position values.length + 1, the exact query text including
its RETURNING list, and the parameter list with the id appended last.
Fails with the compiler's caller error on an empty payload. -/
def jobUpdatePlan (id : JSVal) (data : List (String × JSVal)) :
    Except JsError (String × List JSVal) :=
  match sqlForPartialUpdate data (fun _ => none) with
  | .error e => .error e
  | .ok upd =>
    let idVarIdx := "$" ++ toString (upd.values.length + 1)
    let querySql := "\n      UPDATE jobs\n      SET " ++ upd.setCols ++
      "\n        WHERE id = " ++ idVarIdx ++
      "\n        RETURNING id, title, salary, equity"
    .ok (querySql, upd.values ++ [id])

/-- `Job.update(id, data)` (part_000), over an abstract store executor:
builds the plan, runs the statement once, throws `NotFoundError` when no row
came back, and otherwise returns the first returned row unchanged. -/
def jobUpdate (exec : String → List JSVal → List Row) (id : JSVal)
    (data : List (String × JSVal)) : Except JsError Row :=
  match jobUpdatePlan id data with
  | .error e => .error e
  | .ok (q, ps) =>
    match exec q ps with
    | [] => .error (.notFound ("No job found at id: " ++ id.display))
    | row :: _ => .ok row

/-! ## middleware/auth.js : ensureCurrUserOrAdmin -/

/-- The verified token payload stored on `res.locals.user`: a username (which
the payload may lack) and the privilege flag. -/
structure AuthUser where
  username : Option String
  isAdmin : Bool
deriving DecidableEq, Repr

/-- `user?.isAdmin` truthiness: false for an anonymous caller. -/
def callerIsAdmin (user : Option AuthUser) : Bool :=
  (user.map (·.isAdmin)).getD false

/-- `user?.username`: `none` (undefined) when the caller is anonymous or the
payload has no username. -/
def callerIdentity (user : Option AuthUser) : Option String :=
  user.bind (·.username)

/-- `req.params?.username`: `none` (undefined) when the request has no
params object or the params contain no username entry. -/
def routeTargetUsername (params : Option (List (String × String))) : Option String :=
  params.bind (fun ps => (ps.find? (fun kv => kv.1 == "username")).map Prod.snd)

/-- `ensureCurrUserOrAdmin(req, res, next)` from `middleware/auth.js`:
passes the request through when `user?.isAdmin` is truthy or
`user?.username === req.params?.username` (JavaScript strict equality, under
which two undefineds are equal), and throws `UnauthorizedError` otherwise. -/
def ensureCurrUserOrAdmin (user : Option AuthUser)
    (params : Option (List (String × String))) : Except JsError Unit :=
  if callerIsAdmin user = true ∨ callerIdentity user = routeTargetUsername params then
    .ok ()
  else .error .unauthorized

/-! ## Concrete fixtures used by witness theorems -/

/-- A concrete partial-update payload, the two-field example from the
helper's doc comment. -/
def demoData : List (String × JSVal) :=
  [("firstName", JSVal.str "Aliya"), ("age", JSVal.num 32)]

/-- A concrete camelCase-to-snake_case translation map. -/
def demoTrans : String → Option String :=
  fun x => if x = "firstName" then some "first_name" else none

/-- A translation map carrying a falsy (empty-string) stored name for
`logoUrl`. -/
def demoFalsyTrans : String → Option String :=
  fun x =>
    if x = "logoUrl" then some ""
    else if x = "numEmployees" then some "num_employees"
    else none

/-- A concrete store executor that answers every statement with one row. -/
def demoExec : String → List JSVal → List Row :=
  fun _ _ => [[("id", JSVal.num 1), ("title", JSVal.str "new"),
               ("salary", JSVal.num 100000), ("equity", JSVal.str "0.003")]]

/-! ## Helper lemmas -/

/-- `colsFrom` yields one fragment per key. -/
theorem colsFrom_length (t : String → Option String) :
    ∀ (ks : List String) (n : Nat), (colsFrom t n ks).length = ks.length
  | [], _ => rfl
  | _ :: ks, n => by
      simp only [colsFrom, List.length_cons, colsFrom_length t ks (n + 1)]

/-- The i-th fragment produced by `colsFrom`, starting the enumeration at
`n`: the i-th key quoted and translated, with placeholder index n + i + 1. -/
theorem colsFrom_getElem? (t : String → Option String) :
    ∀ (ks : List String) (n i : Nat),
      (colsFrom t n ks)[i]? =
        (ks[i]?).map
          (fun k => "\"" ++ jsToSqlName t k ++ "\"=$" ++ toString (n + i + 1))
  | [], _, _ => by simp [colsFrom]
  | k :: ks, n, 0 => by simp [colsFrom]
  | k :: ks, n, i + 1 => by
      have ih := colsFrom_getElem? t ks (n + 1) i
      have harith : n + 1 + i + 1 = n + (i + 1) + 1 := by omega
      simpa [colsFrom, harith] using ih

/-- `colsFrom` only looks at keys through `jsToSqlName`: two translation
maps agreeing there produce the same fragments. -/
theorem colsFrom_congr (t u : String → Option String) :
    ∀ (ks : List String) (n : Nat),
      (∀ k ∈ ks, jsToSqlName t k = jsToSqlName u k) →
      colsFrom t n ks = colsFrom u n ks
  | [], _, _ => rfl
  | k :: ks, n, h => by
      simp only [colsFrom, h k (List.mem_cons_self k ks),
        colsFrom_congr t u ks (n + 1) (fun x hx => h x (List.mem_cons_of_mem k hx))]

/-- A non-empty update payload always compiles successfully. -/
theorem sqlForPartialUpdate_ok (data : List (String × JSVal))
    (t : String → Option String) (h : data ≠ []) :
    sqlForPartialUpdate data t =
      Except.ok ⟨String.intercalate ", " (colsFrom t 0 (data.map Prod.fst)),
                 data.map Prod.snd⟩ := by
  have hlen : data.length ≠ 0 := fun hz => h (List.length_eq_zero.mp hz)
  simp only [sqlForPartialUpdate, List.length_map, if_neg hlen]

/-- Once the plan is fixed, `jobUpdate` is one executor round trip: an empty
row set is exactly the not-found error, a non-empty one returns its first
row. -/
theorem jobUpdate_run (exec : String → List JSVal → List Row) (id : JSVal)
    (data : List (String × JSVal)) (q : String) (ps : List JSVal)
    (hplan : jobUpdatePlan id data = Except.ok (q, ps)) :
    (jobUpdate exec id data =
        Except.error (JsError.notFound ("No job found at id: " ++ id.display)) ↔
      exec q ps = []) ∧
    (∀ row rest, exec q ps = row :: rest →
      jobUpdate exec id data = Except.ok row) := by
  have hrun : jobUpdate exec id data =
      (match exec q ps with
        | [] => Except.error (JsError.notFound ("No job found at id: " ++ id.display))
        | row :: _ => Except.ok row) := by
    rw [jobUpdate, hplan]
  constructor
  · cases hexe : exec q ps with
    | nil => simp [hrun, hexe]
    | cons row rest => simp [hrun, hexe]
  · intro row rest hexe
    rw [hrun, hexe]

/-! ## Claim theorems -/

/-- Claim C1: for every non-empty partial-update map and every translation
map, `sqlForPartialUpdate` returns an assignment clause with exactly one
fragment per key joined by comma-space, where the i-th key (in insertion
order) produces the fragment quoted-stored-or-translated-name=dollar-(i+1),
and values[i] is the value of that i-th key. -/
theorem sqlForPartialUpdate_alignment (data : List (String × JSVal))
    (t : String → Option String) (h : data ≠ []) :
    ∃ r, sqlForPartialUpdate data t = Except.ok r ∧
      ∃ frags : List String,
        frags.length = data.length ∧
        r.setCols = String.intercalate ", " frags ∧
        r.values.length = data.length ∧
        ∀ i kv, data[i]? = some kv →
          frags[i]? =
            some ("\"" ++ jsToSqlName t kv.1 ++ "\"=$" ++ toString (i + 1)) ∧
          r.values[i]? = some kv.2 := by
  refine ⟨_, sqlForPartialUpdate_ok data t h,
    colsFrom t 0 (data.map Prod.fst), ?_, rfl, ?_, ?_⟩
  · rw [colsFrom_length, List.length_map]
  · simp
  · intro i kv hkv
    constructor
    · rw [colsFrom_getElem?, List.getElem?_map, hkv]
      simp
    · rw [List.getElem?_map, hkv]
      rfl

/-- Claim C1, witness: the alignment property instantiated at the two-field
example payload and the camelCase translation map. -/
theorem sqlForPartialUpdate_alignment_witness :
    ∃ r, sqlForPartialUpdate demoData demoTrans = Except.ok r ∧
      ∃ frags : List String,
        frags.length = demoData.length ∧
        r.setCols = String.intercalate ", " frags ∧
        r.values.length = demoData.length ∧
        ∀ i kv, demoData[i]? = some kv →
          frags[i]? =
            some ("\"" ++ jsToSqlName demoTrans kv.1 ++ "\"=$" ++ toString (i + 1)) ∧
          r.values[i]? = some kv.2 :=
  sqlForPartialUpdate_alignment demoData demoTrans (by decide)

/-- Claim C10: a translation entry whose stored name is falsy (the empty
string) leaves the original key name in the fragment, exactly as if that key
were absent from the translation map. -/
theorem sqlForPartialUpdate_falsy_translation (data : List (String × JSVal))
    (t : String → Option String) (k : String) (h : t k = some "") :
    jsToSqlName t k = k ∧
    sqlForPartialUpdate data t =
      sqlForPartialUpdate data (fun x => if x = k then none else t x) := by
  have hname : jsToSqlName t k = k := by
    rw [jsToSqlName, h]
    simp
  refine ⟨hname, ?_⟩
  have hcols : colsFrom t 0 (data.map Prod.fst) =
      colsFrom (fun x => if x = k then none else t x) 0 (data.map Prod.fst) := by
    refine colsFrom_congr t _ (data.map Prod.fst) 0 (fun x _ => ?_)
    by_cases hx : x = k
    · subst hx
      rw [hname, jsToSqlName]
      simp
    · rw [jsToSqlName, jsToSqlName]
      simp [hx]
  rw [sqlForPartialUpdate, sqlForPartialUpdate, hcols]

/-- Claim C10, witness: the falsy-translation rule instantiated at a
logo-url payload and a translation map sending logoUrl to the empty
string. -/
theorem sqlForPartialUpdate_falsy_translation_witness :
    jsToSqlName demoFalsyTrans "logoUrl" = "logoUrl" ∧
    sqlForPartialUpdate [("logoUrl", JSVal.str "testUrl")] demoFalsyTrans =
      sqlForPartialUpdate [("logoUrl", JSVal.str "testUrl")]
        (fun x => if x = "logoUrl" then none else demoFalsyTrans x) :=
  sqlForPartialUpdate_falsy_translation
    [("logoUrl", JSVal.str "testUrl")] demoFalsyTrans "logoUrl" rfl

/-- Claim C7: for every key and non-empty payload, `Job.update` runs the
compiled statement with the key appended as the final positional parameter
at position n + 1, fails with `NotFoundError` exactly when no row came back,
and on success returns the first row of the statement's own RETURNING list
without a re-read. -/
theorem jobUpdate_spec (exec : String → List JSVal → List Row) (id : JSVal)
    (data : List (String × JSVal)) (h : data ≠ []) :
    ∃ upd q ps, sqlForPartialUpdate data (fun _ => none) = Except.ok upd ∧
      jobUpdatePlan id data = Except.ok (q, ps) ∧
      ps = upd.values ++ [id] ∧
      ps.length = upd.values.length + 1 ∧
      ps[upd.values.length]? = some id ∧
      q = "\n      UPDATE jobs\n      SET " ++ upd.setCols ++
          "\n        WHERE id = " ++ ("$" ++ toString (upd.values.length + 1)) ++
          "\n        RETURNING id, title, salary, equity" ∧
      (jobUpdate exec id data =
          Except.error (JsError.notFound ("No job found at id: " ++ id.display)) ↔
        exec q ps = []) ∧
      (∀ row rest, exec q ps = row :: rest → jobUpdate exec id data = Except.ok row) := by
  obtain ⟨upd, hupd⟩ : ∃ upd, sqlForPartialUpdate data (fun _ => none) = Except.ok upd :=
    ⟨_, sqlForPartialUpdate_ok data (fun _ => none) h⟩
  have hplan : jobUpdatePlan id data =
      Except.ok ("\n      UPDATE jobs\n      SET " ++ upd.setCols ++
        "\n        WHERE id = " ++ ("$" ++ toString (upd.values.length + 1)) ++
        "\n        RETURNING id, title, salary, equity", upd.values ++ [id]) := by
    rw [jobUpdatePlan, hupd]
  exact ⟨upd, _, _, hupd, hplan, rfl, by simp, List.getElem?_concat_length _ _,
    rfl, (jobUpdate_run exec id data _ _ hplan).1, (jobUpdate_run exec id data _ _ hplan).2⟩

/-- Claim C7, witness: the update contract instantiated at id 1, the
single-field payload retitling the job, and a one-row executor. -/
theorem jobUpdate_spec_witness :
    ∃ upd q ps,
      sqlForPartialUpdate [("title", JSVal.str "new")] (fun _ => none) =
        Except.ok upd ∧
      jobUpdatePlan (JSVal.num 1) [("title", JSVal.str "new")] =
        Except.ok (q, ps) ∧
      ps = upd.values ++ [JSVal.num 1] ∧
      ps.length = upd.values.length + 1 ∧
      ps[upd.values.length]? = some (JSVal.num 1) ∧
      q = "\n      UPDATE jobs\n      SET " ++ upd.setCols ++
          "\n        WHERE id = " ++ ("$" ++ toString (upd.values.length + 1)) ++
          "\n        RETURNING id, title, salary, equity" ∧
      (jobUpdate demoExec (JSVal.num 1) [("title", JSVal.str "new")] =
          Except.error
            (JsError.notFound ("No job found at id: " ++ (JSVal.num 1).display)) ↔
        demoExec q ps = []) ∧
      (∀ row rest, demoExec q ps = row :: rest →
        jobUpdate demoExec (JSVal.num 1) [("title", JSVal.str "new")] =
          Except.ok row) :=
  jobUpdate_spec demoExec (JSVal.num 1) [("title", JSVal.str "new")] (by decide)

/-- Claim C6: calling `sqlForPartialUpdate` with an empty attribute map
always fails with the caller error `BadRequestError("No data")`, for every
translation map, and never returns a clause. -/
theorem sqlForPartialUpdate_empty_badRequest (t : String → Option String) :
    sqlForPartialUpdate [] t = Except.error (JsError.badRequest "No data") := rfl

/-- Claim C5, counterexample: the part_000 `Job.formatWhereCmds` compiles
the empty filter map to sqlCmd null and values null, which is not the
claimed pair of null clause and empty values list. -/
theorem jobFormatWhereCmds_empty_values_null :
    jobFormatWhereCmds [] = ⟨none, none⟩ ∧
    jobFormatWhereCmds [] ≠ ⟨none, some []⟩ := by
  exact ⟨rfl, by decide⟩

/-- Claim C5, amended: compiling the empty filter map always yields sqlCmd
null and values null (both components absent), never an empty or partial
clause string. -/
theorem jobFormatWhereCmds_empty_null_null :
    jobFormatWhereCmds [] = ⟨none, none⟩ := rfl

/-- Claim C4, evaluation at the failing input: in part_000 the filter map
holding only hasEquity=false compiles to a bare "WHERE " clause with an
empty values list while the empty map compiles to (null, null), so the two
differ; in the part_001 revision the same two inputs also differ, in the
opposite direction. -/
theorem jobFormatWhereCmds_hasEquity_false_diverges :
    jobFormatWhereCmds [("hasEquity", JSVal.bool false)] = ⟨some "WHERE ", some []⟩ ∧
    jobFormatWhereCmds [] = ⟨none, none⟩ ∧
    jobFormatWhereCmds [("hasEquity", JSVal.bool false)] ≠ jobFormatWhereCmds [] ∧
    jobFormatWhereCmdsRev [("hasEquity", JSVal.bool false)] = ⟨none, none⟩ ∧
    jobFormatWhereCmdsRev [] = ⟨some "WHERE ", some []⟩ := by
  refine ⟨rfl, rfl, by decide, rfl, rfl⟩

/-- Claim C3, evaluation at the failing input: the helper `formatWhereCmds`
given minEmployees=5 and maxEmployees=3 emits both bound predicates and
returns normally instead of failing, even though its own doc comment says it
throws; the caller error for that input is raised only by the separate guard
at the top of `Company.findAll`. -/
theorem formatWhereCmds_min_exceeds_max_no_error :
    formatWhereCmds [("minEmployees", JSVal.num 5), ("maxEmployees", JSVal.num 3)] =
      ⟨["WHERE num_employees >= 5", "AND num_employees <= 3"], "$1 $2"⟩ ∧
    companyFindAllBoundsError
      [("minEmployees", JSVal.num 5), ("maxEmployees", JSVal.num 3)] = true := by
  exact ⟨rfl, rfl⟩

/-- Claim C2, evaluation at the failing input: the helper `formatWhereCmds`
interpolates the caller-supplied nameLike value into the clause text, so two
runs that differ only in the filter value produce different clause text, and
the result carries no separate values sequence at all. -/
theorem formatWhereCmds_interpolates_values :
    (formatWhereCmds [("nameLike", JSVal.str "a")]).conditions =
      ["WHERE name ILIKE \x27%a%\x27"] ∧
    (formatWhereCmds [("nameLike", JSVal.str "b")]).conditions =
      ["WHERE name ILIKE \x27%b%\x27"] ∧
    (formatWhereCmds [("nameLike", JSVal.str "a")]).conditions ≠
      (formatWhereCmds [("nameLike", JSVal.str "b")]).conditions := by
  refine ⟨rfl, rfl, by decide⟩

/-- The revised Job filter compiler, by contrast, keeps every
caller-supplied value out of the clause text: two runs differing only in the
title value produce identical clause text. -/
theorem jobFormatWhereCmdsRev_clause_value_free :
    (jobFormatWhereCmdsRev [("title", JSVal.str "a")]).sqlCmd =
      (jobFormatWhereCmdsRev [("title", JSVal.str "b")]).sqlCmd := rfl

/-- Claim C8: every caller whose identity does not equal the path's target
identity and who is not privileged is refused with `UnauthorizedError`, and
every privileged caller is permitted regardless of the target identity. -/
theorem ensureCurrUserOrAdmin_gate (user : Option AuthUser)
    (params : Option (List (String × String))) :
    (callerIsAdmin user = true → ensureCurrUserOrAdmin user params = .ok ()) ∧
    (callerIsAdmin user = false →
      callerIdentity user ≠ routeTargetUsername params →
      ensureCurrUserOrAdmin user params = .error .unauthorized) := by
  constructor
  · intro ha
    simp [ensureCurrUserOrAdmin, ha]
  · intro ha hne
    rw [ensureCurrUserOrAdmin, if_neg]
    rintro (h1 | h2)
    · rw [ha] at h1; exact Bool.false_ne_true h1
    · exact hne h2

/-- Claim C8, witness: a non-privileged caller alice on bob's path is
refused; a privileged caller on the same path is permitted. -/
theorem ensureCurrUserOrAdmin_gate_witness :
    ensureCurrUserOrAdmin (some ⟨some "alice", false⟩)
      (some [("username", "bob")]) = .error .unauthorized ∧
    ensureCurrUserOrAdmin (some ⟨some "root1", true⟩)
      (some [("username", "bob")]) = .ok () := by
  exact ⟨(ensureCurrUserOrAdmin_gate _ _).2 rfl (by decide),
         (ensureCurrUserOrAdmin_gate _ _).1 rfl⟩

/-- Claim C9: an anonymous caller on a request whose route parameters carry
no target username is permitted by `ensureCurrUserOrAdmin`, because the
absent caller identity and the absent target identity are both undefined and
strict equality holds between them. -/
theorem ensureCurrUserOrAdmin_anonymous_no_target
    (params : Option (List (String × String)))
    (h : routeTargetUsername params = none) :
    ensureCurrUserOrAdmin none params = .ok () := by
  rw [ensureCurrUserOrAdmin, if_pos]
  right
  rw [h]
  rfl

/-- Claim C9, witness: an anonymous caller with an empty params object is
permitted. -/
theorem ensureCurrUserOrAdmin_anonymous_no_target_witness :
    ensureCurrUserOrAdmin none (some []) = .ok () :=
  ensureCurrUserOrAdmin_anonymous_no_target (some []) rfl

end Jobly
